import Mathlib

/-!
# Verification of the Kraken grid bot's position lifecycle engine

A shallow embedding of `src/kraken_grid_bot.py`. Prices and quantities are
modelled as rationals. The price feed seen by one pipeline is a list of
`Option ℚ`: each element is the value returned by one call to
`get_current_price` (`none` is the `None` returned when the fetch fails).
The Python loops (`while True` with `time.sleep`) consume the feed one
element per iteration; a run whose feed is exhausted while a loop would
still be polling is reported as still running, never as finished.

The exchange gateway outcome of an order submission is a parameter
(`GatewayResult`): `filled` means `create_limit_*_order` returned normally,
anything else means it raised, landing in the function's `except` branch.
-/

namespace KrakenGridBot

/-- The ledger action of a CSV row written by `log_trade`. -/
inductive Action
  | buy
  | sell
deriving DecidableEq

/-- One row appended to the trade-history CSV by `log_trade`. -/
structure LedgerEntry where
  action : Action
  pair : String
  price : ℚ
  amount : ℚ
deriving DecidableEq

/-- The configuration constants of section 3 of the script. -/
structure Config where
  take_profit_percentage : ℚ
  stop_loss_percentage : ℚ
  trailing_stop_percentage : ℚ
  TARGET_PROFIT : ℚ
deriving DecidableEq

/-- The literal values in the source: 5%, 3%, 2%, $100. -/
def defaultConfig : Config :=
  { take_profit_percentage := 5 / 100
    stop_loss_percentage := 3 / 100
    trailing_stop_percentage := 2 / 100
    TARGET_PROFIT := 100 }

/-- Outcome of one exchange order submission, seen from the bot: `filled`
when the ccxt call returns, otherwise the exception the `except` branch
catches (`rateLimited` carries the advertised retry delay in seconds). -/
inductive GatewayResult
  | filled
  | rateLimited (retryAfterSeconds : ℕ)
  | rejected
deriving DecidableEq

/-- Which exit closed (or would close) a position. -/
inductive ExitKind
  | takeProfit
  | stopLoss
  | trailingStop
deriving DecidableEq

/-- Observable events of a pipeline, in program order: order submissions and
their outcomes, the exit-trigger notifications, and the `exit()` taken when
the profit target is reached.  `stalledWarning` exists only to state the
spec's STALLED escalation: no function of the source ever emits it. -/
inductive Event
  | bought (pair : String) (price amount : ℚ)
  | buyFailed (pair : String) (price amount : ℚ)
  | sellSubmitted (pair : String) (price amount : ℚ)
  | soldOk (pair : String) (price amount : ℚ)
  | sellFailed (pair : String) (price amount : ℚ)
  | exitTriggered (pair : String) (kind : ExitKind) (price : ℚ)
  | stalledWarning (pair : String)
  | haltExit
deriving DecidableEq

/-- The Python `TypeError` raised by `None * float`. -/
inductive PyError
  | typeError
deriving DecidableEq

/-- Result of one call to `place_sell_order` (lines 177-190): on success the
SELL row is logged; on failure the exception is printed and swallowed —
no wait, no resubmission. -/
structure SellCall where
  filled : Bool
  entries : List LedgerEntry
  events : List Event
deriving DecidableEq

/-- `place_sell_order(pair, sell_price)`: submits one limit sell for
`trade_amount`; logs the SELL and notifies on success, only notifies the
failure otherwise. Exactly one `sellSubmitted` event per call. -/
def place_sell_order (pair : String) (sell_price trade_amount : ℚ)
    (gw : GatewayResult) : SellCall :=
  match gw with
  | .filled =>
      { filled := true
        entries := [⟨.sell, pair, sell_price, trade_amount⟩]
        events := [.sellSubmitted pair sell_price trade_amount,
                   .soldOk pair sell_price trade_amount] }
  | .rateLimited _ =>
      { filled := false
        entries := []
        events := [.sellSubmitted pair sell_price trade_amount,
                   .sellFailed pair sell_price trade_amount] }
  | .rejected =>
      { filled := false
        entries := []
        events := [.sellSubmitted pair sell_price trade_amount,
                   .sellFailed pair sell_price trade_amount] }

/-- Result of a run of `place_buy_order` (lines 153-175). -/
structure BuyRun where
  buyPrice : Option ℚ
  entries : List LedgerEntry
  events : List Event
  feedRemaining : List (Option ℚ)
deriving DecidableEq

/-- `place_buy_order(pair)`: fetches the current price (one feed element);
returns `None` when the fetch failed or the price is non-positive, otherwise
submits a limit buy at that price and returns it; an order failure is
notified and swallowed, returning `None`. No entry condition, cooldown,
halted flag or open-position check appears anywhere in the function. -/
def place_buy_order (pair : String) (trade_amount : ℚ) (gw : GatewayResult) :
    List (Option ℚ) → BuyRun
  | [] => ⟨none, [], [], []⟩
  | none :: feed => ⟨none, [], [], feed⟩
  | some buy_price :: feed =>
      if buy_price ≤ 0 then ⟨none, [], [], feed⟩
      else
        match gw with
        | .filled =>
            ⟨some buy_price, [⟨.buy, pair, buy_price, trade_amount⟩],
              [.bought pair buy_price trade_amount], feed⟩
        | _ => ⟨none, [], [.buyFailed pair buy_price trade_amount], feed⟩

/-- What a monitor loop returned: `exited p k f` when it placed a sell at
observed price `p` for exit reason `k` (`f` = whether that sell filled) and
broke out of its loop; `running` when the feed ended while the loop was
still polling (the Python loop would still be waiting for the next tick). -/
inductive MonitorResult
  | exited (sellPrice : ℚ) (kind : ExitKind) (filled : Bool)
  | running
deriving DecidableEq

/-- A monitor loop's run: its result, the ledger rows and events it
produced, and the part of the feed it did not consume. -/
structure MonitorRun where
  result : MonitorResult
  entries : List LedgerEntry
  events : List Event
  feedRemaining : List (Option ℚ)
deriving DecidableEq

/-- The loop of `check_take_profit_and_stop_loss(pair, buy_price)`
(lines 217-241): each iteration fetches a price; `None` sleeps and
continues; otherwise take-profit (`current >= buy*(1+tp)`) is tested first,
then stop-loss (`current <= buy*(1-sl)`); the first satisfied one sells at
the observed price, notifies, and breaks. Nothing counts skipped ticks and
no STALLED escalation exists. -/
def check_take_profit_and_stop_loss (cfg : Config) (pair : String)
    (buy_price trade_amount : ℚ) (gw : GatewayResult) :
    List (Option ℚ) → MonitorRun
  | [] => ⟨.running, [], [], []⟩
  | none :: feed =>
      check_take_profit_and_stop_loss cfg pair buy_price trade_amount gw feed
  | some current_price :: feed =>
      if buy_price * (1 + cfg.take_profit_percentage) ≤ current_price then
        let c := place_sell_order pair current_price trade_amount gw
        ⟨.exited current_price .takeProfit c.filled, c.entries,
          c.events ++ [.exitTriggered pair .takeProfit current_price], feed⟩
      else if current_price ≤ buy_price * (1 - cfg.stop_loss_percentage) then
        let c := place_sell_order pair current_price trade_amount gw
        ⟨.exited current_price .stopLoss c.filled, c.entries,
          c.events ++ [.exitTriggered pair .stopLoss current_price], feed⟩
      else
        check_take_profit_and_stop_loss cfg pair buy_price trade_amount gw feed

/-- The high-water / trailing-trigger update of `trailing_sell`
(lines 209-211): a higher observation raises both, anything else leaves
both untouched. -/
def trailingUpdate (cfg : Config) (highest_price stop_price current_price : ℚ) :
    ℚ × ℚ :=
  if highest_price < current_price then
    (current_price, current_price * (1 - cfg.trailing_stop_percentage))
  else (highest_price, stop_price)

/-- The `while True` loop of `trailing_sell` (lines 203-215): a `None` fetch
sleeps and continues; otherwise the high-water update runs, and if the
observed price is at or below the (updated) stop price a sell is placed at
the observed price and the loop breaks. -/
def trailingLoop (cfg : Config) (pair : String) (trade_amount : ℚ)
    (gw : GatewayResult) (highest_price stop_price : ℚ) :
    List (Option ℚ) → MonitorRun
  | [] => ⟨.running, [], [], []⟩
  | none :: feed => trailingLoop cfg pair trade_amount gw highest_price stop_price feed
  | some current_price :: feed =>
      let u := trailingUpdate cfg highest_price stop_price current_price
      if current_price ≤ u.2 then
        let c := place_sell_order pair current_price trade_amount gw
        ⟨.exited current_price .trailingStop c.filled, c.entries, c.events, feed⟩
      else trailingLoop cfg pair trade_amount gw u.1 u.2 feed

/-- `trailing_sell(pair, buy_price)` (lines 195-215): the first fetch
initializes `highest_price` with NO `None` guard — when it is `None`,
computing `highest_price * (1 - trailing_stop_percentage)` raises a
`TypeError`; only fetches inside the loop are guarded by sleep-and-retry. -/
def trailing_sell (cfg : Config) (pair : String) (trade_amount : ℚ)
    (gw : GatewayResult) : List (Option ℚ) → Option PyError × MonitorRun
  | [] => (none, ⟨.running, [], [], []⟩)
  | none :: feed => (some .typeError, ⟨.running, [], [], feed⟩)
  | some highest0 :: feed =>
      (none, trailingLoop cfg pair trade_amount gw highest0
        (highest0 * (1 - cfg.trailing_stop_percentage)) feed)

/-- The per-row accumulation of `check_total_profit` (lines 272-278): BUY
subtracts notional, SELL adds it. -/
def totalProfitStep (acc : ℚ) (e : LedgerEntry) : ℚ :=
  match e.action with
  | .buy => acc - e.price * e.amount
  | .sell => acc + e.price * e.amount

/-- The net profit `check_total_profit` computes from the trade-history
rows. -/
def total_profit (l : List LedgerEntry) : ℚ :=
  l.foldl totalProfitStep 0

/-- `check_total_profit()` (lines 260-285): `False` when the CSV does not
exist yet (no row ever logged in this run); otherwise `True` exactly when
the accumulated net profit has reached `TARGET_PROFIT`. -/
def check_total_profit (cfg : Config) (l : List LedgerEntry) : Bool :=
  if l.isEmpty then false
  else decide (cfg.TARGET_PROFIT ≤ total_profit l)

/-- How `execute_trading_strategy` ended. `stillTPSL` / `stillTrailing`:
the feed ended inside that monitor loop (the thread is still monitoring).
`caughtCritical`: the monitor raised and the outer `except Exception`
branch ran. -/
inductive StratStatus
  | done
  | noBuy
  | stillTPSL
  | stillTrailing
  | caughtCritical (e : PyError)
deriving DecidableEq

/-- A full run of `execute_trading_strategy` for one pair: final status,
the ledger rows this run appended, its events in program order, the unread
feed, and whether `exit()` was reached after the profit check. -/
structure StratResult where
  status : StratStatus
  ledger : List LedgerEntry
  events : List Event
  feedRemaining : List (Option ℚ)
  halted : Bool
deriving DecidableEq

/-- `execute_trading_strategy(pair)` (lines 310-336): one buy attempt; if
it returned a price, the TP/SL monitor runs to its sell, then — with no
check that the position still exists — `trailing_sell` runs to a second
sell; a `TypeError` from `trailing_sell` is caught by the `except Exception`
branch; finally (reached unless a monitor loop is still polling)
`check_total_profit` runs and a met target makes the thread call `exit()`.
`priorLedger` holds the CSV rows earlier writers already appended. -/
def execute_trading_strategy (cfg : Config) (pair : String) (trade_amount : ℚ)
    (gwBuy gwTPSL gwTrail : GatewayResult) (priorLedger : List LedgerEntry)
    (feed : List (Option ℚ)) : StratResult :=
  let b := place_buy_order pair trade_amount gwBuy feed
  match b.buyPrice with
  | none =>
      let halt := check_total_profit cfg (priorLedger ++ b.entries)
      ⟨.noBuy, b.entries, b.events ++ (if halt then [.haltExit] else []),
        b.feedRemaining, halt⟩
  | some buy_price =>
      let m1 := check_take_profit_and_stop_loss cfg pair buy_price trade_amount
        gwTPSL b.feedRemaining
      match m1.result with
      | .running =>
          ⟨.stillTPSL, b.entries ++ m1.entries, b.events ++ m1.events,
            m1.feedRemaining, false⟩
      | .exited _ _ _ =>
          let t := trailing_sell cfg pair trade_amount gwTrail m1.feedRemaining
          match t.1 with
          | some e =>
              let led := b.entries ++ m1.entries ++ t.2.entries
              let halt := check_total_profit cfg (priorLedger ++ led)
              ⟨.caughtCritical e, led,
                b.events ++ m1.events ++ t.2.events ++
                  (if halt then [.haltExit] else []),
                t.2.feedRemaining, halt⟩
          | none =>
              match t.2.result with
              | .running =>
                  ⟨.stillTrailing, b.entries ++ m1.entries ++ t.2.entries,
                    b.events ++ m1.events ++ t.2.events, t.2.feedRemaining, false⟩
              | .exited _ _ _ =>
                  let led := b.entries ++ m1.entries ++ t.2.entries
                  let halt := check_total_profit cfg (priorLedger ++ led)
                  ⟨.done, led,
                    b.events ++ m1.events ++ t.2.events ++
                      (if halt then [.haltExit] else []),
                    t.2.feedRemaining, halt⟩

/-- Bool classifiers over events, used to state trace properties. -/
def isBought : Event → Bool
  | .bought _ _ _ => true
  | _ => false

def isHalt : Event → Bool
  | .haltExit => true
  | _ => false

def isStalledWarning : Event → Bool
  | .stalledWarning _ => true
  | _ => false

def isSellSubmitted : Event → Bool
  | .sellSubmitted _ _ _ => true
  | _ => false

/-- Number of SELL rows among ledger entries. -/
def sellEntryCount (l : List LedgerEntry) : ℕ :=
  l.countP (fun e => decide (e.action = Action.sell))

/-- `true` when no event of the trace is a `haltExit`. -/
def haltFree (l : List Event) : Bool :=
  l.all (fun e => !(isHalt e))

/-- `true` when no `bought` event appears anywhere after a `haltExit`. -/
def noBuyAfterHalt : List Event → Bool
  | [] => true
  | e :: rest =>
      ((!(isHalt e)) || rest.all (fun x => !(isBought x))) && noBuyAfterHalt rest

/-- `true` for an `exitTriggered` notification of the given kind. -/
def isExitOfKind (k : ExitKind) : Event → Bool
  | .exitTriggered _ k2 _ => decide (k2 = k)
  | _ => false

/-- Per-action notional of the ledger: the sum of `price * amount` over the
rows with that action. -/
def notional (a : Action) (l : List LedgerEntry) : ℚ :=
  ((l.filter fun e => decide (e.action = a)).map fun e => e.price * e.amount).sum

/-! ## Concrete scenarios -/

/-- A feed on which both monitors trigger: buy at 100, take-profit sell at
106, then the trailing monitor initializes at 103 (trigger 100.94) and
sells again at 100. -/
def feedDoubleSell : List (Option ℚ) := [some 100, some 106, some 103, some 100]

/-- The spec's scenario path: entry fetch 100 then observations 103, 106,
104. -/
def feedScenario9 : List (Option ℚ) := [some 100, some 103, some 106, some 104]

/-- A feed driving one pipeline past the profit target: buy 100, take-profit
sell 206, trailing sell 200; net profit 306 ≥ 100. -/
def feedHalt : List (Option ℚ) := [some 100, some 206, some 300, some 200]

/-- The first fetch of a pipeline scheduled late: a plain buyable price. -/
def feedLate : List (Option ℚ) := [some 50]

/-- The double-sell run of `feedDoubleSell`. -/
def runDoubleSell : StratResult :=
  execute_trading_strategy defaultConfig "BTC/USD" 1 .filled .filled .filled [] feedDoubleSell

/-- The run of the spec's scenario path `feedScenario9`. -/
def runScenario9 : StratResult :=
  execute_trading_strategy defaultConfig "BTC/USD" 1 .filled .filled .filled [] feedScenario9

/-- Thread A's pipeline, run to completion: it reaches the profit target and
calls `exit()`, which raises `SystemExit` in — and terminates — only its own
thread. -/
def pipelineA : StratResult :=
  execute_trading_strategy defaultConfig "BTC/USD" 1 .filled .filled .filled [] feedHalt

/-- Thread B's pipeline, first scheduled after thread A completed: it reads
the CSV rows A appended (`pipelineA.ledger`) and still starts with its
unconditional buy. -/
def pipelineB : StratResult :=
  execute_trading_strategy defaultConfig "ETH/USD" 1 .filled .filled .filled
    pipelineA.ledger feedLate

/-- The global event order of the admissible schedule in which thread A runs
to completion before thread B's first step. Nothing in the program
synchronizes the threads, so this serialization is a possible execution. -/
def sequentialTrace : List Event := pipelineA.events ++ pipelineB.events

/-- The TP/SL monitor run in which the one sell submission is rate-limited:
entry 100, first tick 106 triggers take-profit, the gateway answers
`RateLimited{retryAfter=30}`, and a second tick at 106 remains available. -/
def rateLimitedRun : MonitorRun :=
  check_take_profit_and_stop_loss defaultConfig "BTC/USD" 100 1
    (.rateLimited 30) [some 106, some 106]

/-- Five consecutive failed price fetches, then a take-profit tick. -/
def staleFeed : List (Option ℚ) := [none, none, none, none, none, some 200]

/-- The TP/SL monitor run over `staleFeed`. -/
def staleRun : MonitorRun :=
  check_take_profit_and_stop_loss defaultConfig "BTC/USD" 100 1 .filled staleFeed

/-- A two-row ledger: buy at 100, sell at 106. -/
def demoLedgerA : List LedgerEntry :=
  [⟨.buy, "BTC/USD", 100, 1⟩, ⟨.sell, "BTC/USD", 106, 1⟩]

/-- `demoLedgerA` with the two rows appended in the opposite order. -/
def demoLedgerB : List LedgerEntry :=
  [⟨.sell, "BTC/USD", 106, 1⟩, ⟨.buy, "BTC/USD", 100, 1⟩]

/-! ## Helper lemmas -/

theorem sellEntryCount_append (l m : List LedgerEntry) :
    sellEntryCount (l ++ m) = sellEntryCount l + sellEntryCount m :=
  List.countP_append _ _ _

theorem sellEntryCount_place_sell_le_one (pair : String) (p amt : ℚ)
    (gw : GatewayResult) :
    sellEntryCount (place_sell_order pair p amt gw).entries ≤ 1 := by
  cases gw <;> simp [place_sell_order, sellEntryCount, List.countP_cons]

theorem sellEntryCount_tpsl_le_one (cfg : Config) (pair : String) (bp amt : ℚ)
    (gw : GatewayResult) (feed : List (Option ℚ)) :
    sellEntryCount
      (check_take_profit_and_stop_loss cfg pair bp amt gw feed).entries ≤ 1 := by
  induction feed with
  | nil => simp [check_take_profit_and_stop_loss, sellEntryCount]
  | cons h t ih =>
    cases h with
    | none => simpa [check_take_profit_and_stop_loss] using ih
    | some p =>
      simp only [check_take_profit_and_stop_loss]
      split
      · exact sellEntryCount_place_sell_le_one pair p amt gw
      · split
        · exact sellEntryCount_place_sell_le_one pair p amt gw
        · exact ih

theorem sellEntryCount_trailingLoop_le_one (cfg : Config) (pair : String)
    (amt : ℚ) (gw : GatewayResult) (hw stop : ℚ) (feed : List (Option ℚ)) :
    sellEntryCount (trailingLoop cfg pair amt gw hw stop feed).entries ≤ 1 := by
  induction feed generalizing hw stop with
  | nil => simp [trailingLoop, sellEntryCount]
  | cons h t ih =>
    cases h with
    | none => simpa [trailingLoop] using ih hw stop
    | some p =>
      simp only [trailingLoop]
      split
      · exact sellEntryCount_place_sell_le_one pair p amt gw
      · exact ih _ _

theorem sellEntryCount_trailing_sell_le_one (cfg : Config) (pair : String)
    (amt : ℚ) (gw : GatewayResult) (feed : List (Option ℚ)) :
    sellEntryCount (trailing_sell cfg pair amt gw feed).2.entries ≤ 1 := by
  cases feed with
  | nil => simp [trailing_sell, sellEntryCount]
  | cons h t =>
    cases h with
    | none => simp [trailing_sell, sellEntryCount]
    | some p => exact sellEntryCount_trailingLoop_le_one cfg pair amt gw p _ t

theorem sellEntryCount_buy_eq_zero (pair : String) (amt : ℚ)
    (gw : GatewayResult) (feed : List (Option ℚ)) :
    sellEntryCount (place_buy_order pair amt gw feed).entries = 0 := by
  cases feed with
  | nil => rfl
  | cons h t =>
    cases h with
    | none => rfl
    | some p =>
      simp only [place_buy_order]
      split
      · rfl
      · cases gw <;> simp [sellEntryCount, List.countP_cons]

theorem sellEntryCount_strategy_le_two (cfg : Config) (pair : String) (amt : ℚ)
    (gwBuy gwTPSL gwTrail : GatewayResult) (prior : List LedgerEntry)
    (feed : List (Option ℚ)) :
    sellEntryCount (execute_trading_strategy cfg pair amt gwBuy gwTPSL gwTrail
      prior feed).ledger ≤ 2 := by
  unfold execute_trading_strategy
  dsimp only
  cases hbp : (place_buy_order pair amt gwBuy feed).buyPrice with
  | none =>
    simp only [hbp]
    have h0 := sellEntryCount_buy_eq_zero pair amt gwBuy feed
    try dsimp only
    omega
  | some bp =>
    simp only [hbp]
    have h0 := sellEntryCount_buy_eq_zero pair amt gwBuy feed
    have h1 := sellEntryCount_tpsl_le_one cfg pair bp amt gwTPSL
      (place_buy_order pair amt gwBuy feed).feedRemaining
    cases hm1 : (check_take_profit_and_stop_loss cfg pair bp amt gwTPSL
        (place_buy_order pair amt gwBuy feed).feedRemaining).result with
    | running =>
      simp only [hm1]
      try dsimp only
      rw [sellEntryCount_append]
      omega
    | exited ps k f =>
      simp only [hm1]
      have h2 := sellEntryCount_trailing_sell_le_one cfg pair amt gwTrail
        (check_take_profit_and_stop_loss cfg pair bp amt gwTPSL
          (place_buy_order pair amt gwBuy feed).feedRemaining).feedRemaining
      cases ht1 : (trailing_sell cfg pair amt gwTrail
          (check_take_profit_and_stop_loss cfg pair bp amt gwTPSL
            (place_buy_order pair amt gwBuy feed).feedRemaining).feedRemaining).1 with
      | some e =>
        simp only [ht1]
        try dsimp only
        rw [sellEntryCount_append, sellEntryCount_append]
        omega
      | none =>
        simp only [ht1]
        cases ht2 : (trailing_sell cfg pair amt gwTrail
            (check_take_profit_and_stop_loss cfg pair bp amt gwTPSL
              (place_buy_order pair amt gwBuy feed).feedRemaining).feedRemaining).2.result with
        | running =>
          simp only [ht2]
          try dsimp only
          rw [sellEntryCount_append, sellEntryCount_append]
          omega
        | exited ps2 k2 f2 =>
          simp only [ht2]
          try dsimp only
          rw [sellEntryCount_append, sellEntryCount_append]
          omega

theorem haltFree_append (l m : List Event) :
    haltFree (l ++ m) = (haltFree l && haltFree m) :=
  List.all_append

theorem noBuyAfterHalt_of_haltFree :
    ∀ l : List Event, haltFree l = true → noBuyAfterHalt l = true := by
  intro l
  induction l with
  | nil => intro _; rfl
  | cons e t ih =>
    intro h
    simp only [haltFree, List.all_cons, Bool.and_eq_true] at h
    simp only [noBuyAfterHalt, Bool.and_eq_true, Bool.or_eq_true]
    exact ⟨Or.inl h.1, ih h.2⟩

theorem noBuyAfterHalt_append_of_haltFree :
    ∀ l m : List Event, haltFree l = true →
      noBuyAfterHalt (l ++ m) = noBuyAfterHalt m := by
  intro l m
  induction l with
  | nil => intro _; rfl
  | cons e t ih =>
    intro h
    simp only [haltFree, List.all_cons, Bool.and_eq_true] at h
    simp only [List.cons_append, noBuyAfterHalt, h.1, Bool.true_or,
      Bool.not_false, Bool.true_and]
    exact ih h.2

theorem haltFree_place_sell (pair : String) (p amt : ℚ) (gw : GatewayResult) :
    haltFree (place_sell_order pair p amt gw).events = true := by
  cases gw <;> simp [place_sell_order, haltFree, isHalt]

theorem haltFree_buy (pair : String) (amt : ℚ) (gw : GatewayResult)
    (feed : List (Option ℚ)) :
    haltFree (place_buy_order pair amt gw feed).events = true := by
  cases feed with
  | nil => rfl
  | cons h t =>
    cases h with
    | none => rfl
    | some p =>
      simp only [place_buy_order]
      split
      · rfl
      · cases gw <;> simp [haltFree, isHalt]

theorem haltFree_tpsl (cfg : Config) (pair : String) (bp amt : ℚ)
    (gw : GatewayResult) (feed : List (Option ℚ)) :
    haltFree
      (check_take_profit_and_stop_loss cfg pair bp amt gw feed).events = true := by
  induction feed with
  | nil => rfl
  | cons h t ih =>
    cases h with
    | none => simpa [check_take_profit_and_stop_loss] using ih
    | some p =>
      simp only [check_take_profit_and_stop_loss]
      split
      · cases gw <;> simp [place_sell_order, haltFree, isHalt]
      · split
        · cases gw <;> simp [place_sell_order, haltFree, isHalt]
        · exact ih

theorem haltFree_trailingLoop (cfg : Config) (pair : String) (amt : ℚ)
    (gw : GatewayResult) (hw stop : ℚ) (feed : List (Option ℚ)) :
    haltFree (trailingLoop cfg pair amt gw hw stop feed).events = true := by
  induction feed generalizing hw stop with
  | nil => rfl
  | cons h t ih =>
    cases h with
    | none => simpa [trailingLoop] using ih hw stop
    | some p =>
      simp only [trailingLoop]
      split
      · exact haltFree_place_sell pair p amt gw
      · exact ih _ _

theorem haltFree_trailing_sell (cfg : Config) (pair : String) (amt : ℚ)
    (gw : GatewayResult) (feed : List (Option ℚ)) :
    haltFree (trailing_sell cfg pair amt gw feed).2.events = true := by
  cases feed with
  | nil => rfl
  | cons h t =>
    cases h with
    | none => rfl
    | some p => exact haltFree_trailingLoop cfg pair amt gw p _ t

theorem noBuyAfterHalt_tail (b : Bool) :
    noBuyAfterHalt (if b then [Event.haltExit] else []) = true := by
  cases b <;> rfl

theorem no_stalled_tpsl (cfg : Config) (pair : String) (bp amt : ℚ)
    (gw : GatewayResult) (feed : List (Option ℚ)) :
    ((check_take_profit_and_stop_loss cfg pair bp amt gw feed).events.any
      isStalledWarning) = false := by
  induction feed with
  | nil => rfl
  | cons h t ih =>
    cases h with
    | none => simpa [check_take_profit_and_stop_loss] using ih
    | some p =>
      simp only [check_take_profit_and_stop_loss]
      split
      · cases gw <;> simp [place_sell_order, isStalledWarning]
      · split
        · cases gw <;> simp [place_sell_order, isStalledWarning]
        · exact ih

theorem total_profit_foldl_shift :
    ∀ (l : List LedgerEntry) (acc : ℚ),
      l.foldl totalProfitStep acc = acc + l.foldl totalProfitStep 0 := by
  intro l
  induction l with
  | nil => intro acc; simp
  | cons e t ih =>
    intro acc
    simp only [List.foldl_cons]
    rw [ih (totalProfitStep acc e), ih (totalProfitStep 0 e)]
    cases ha : e.action <;> simp [totalProfitStep, ha] <;> ring

theorem total_profit_cons (e : LedgerEntry) (t : List LedgerEntry) :
    total_profit (e :: t) = totalProfitStep 0 e + total_profit t := by
  simp only [total_profit, List.foldl_cons]
  rw [total_profit_foldl_shift]

theorem total_profit_eq_notional (l : List LedgerEntry) :
    total_profit l = notional .sell l - notional .buy l := by
  induction l with
  | nil => simp [total_profit, notional]
  | cons e t ih =>
    rw [total_profit_cons, ih]
    cases ha : e.action <;>
      simp [notional, totalProfitStep, ha, List.filter_cons] <;> ring

theorem total_profit_perm {l m : List LedgerEntry} (h : l.Perm m) :
    total_profit l = total_profit m := by
  induction h with
  | nil => rfl
  | cons e _ ih => rw [total_profit_cons, total_profit_cons, ih]
  | swap x y t =>
    rw [total_profit_cons, total_profit_cons, total_profit_cons,
      total_profit_cons]
    ring
  | trans _ _ ih1 ih2 => rw [ih1, ih2]

theorem check_total_profit_iff (l : List LedgerEntry) :
    (check_total_profit defaultConfig l = true ↔ 100 ≤ total_profit l) := by
  cases l with
  | nil =>
    show (false = true ↔ 100 ≤ total_profit [])
    simp only [total_profit, List.foldl_nil]
    norm_num
  | cons e t =>
    show (decide ((100 : ℚ) ≤ total_profit (e :: t)) = true ↔ _)
    exact decide_eq_true_iff

/-! ## Theorems -/

/-- Claim C1, counterexample: on the feed 100, 106, 103, 100 the strategy
issues TWO sell orders for the one position — the take-profit sell at 106
and then the trailing monitor's sell at 100 — so "at most one sell is ever
issued per position" is false, and the position is not terminal after the
first sell. -/
theorem C1_two_sells_counterexample :
    sellEntryCount runDoubleSell.ledger = 2 ∧ runDoubleSell.status = .done := by
  norm_num [runDoubleSell, feedDoubleSell, execute_trading_strategy, place_buy_order,
    check_take_profit_and_stop_loss, trailing_sell, trailingLoop, trailingUpdate,
    place_sell_order, check_total_profit, total_profit, totalProfitStep,
    sellEntryCount, List.countP_cons, List.countP_nil, defaultConfig]
  decide

/-- Claim C6: one step of the trailing-stop update. Whenever the stop price
is the trailing trigger of the current high-water (the invariant the loop
establishes at initialization) and the configured percentage is at most 1,
an observation never lowers the high-water price or the trigger, and the
trigger invariant is preserved. -/
theorem C6_trailing_trigger_monotone (cfg : Config) (hw stop p : ℚ)
    (hpct : cfg.trailing_stop_percentage ≤ 1)
    (hinv : stop = hw * (1 - cfg.trailing_stop_percentage)) :
    hw ≤ (trailingUpdate cfg hw stop p).1
    ∧ stop ≤ (trailingUpdate cfg hw stop p).2
    ∧ (trailingUpdate cfg hw stop p).2
        = (trailingUpdate cfg hw stop p).1 * (1 - cfg.trailing_stop_percentage) := by
  unfold trailingUpdate
  by_cases h : hw < p
  · rw [if_pos h]
    refine ⟨le_of_lt h, ?_, rfl⟩
    rw [hinv]
    have hnn : (0 : ℚ) ≤ 1 - cfg.trailing_stop_percentage := by linarith
    exact mul_le_mul_of_nonneg_right (le_of_lt h) hnn
  · rw [if_neg h]
    exact ⟨le_refl hw, le_refl stop, hinv⟩

/-- Claim C6, witness: high-water 100 (trigger 98) observing 103 with the
configured 2% raises the pair to (103, 100.94). -/
theorem C6_trailing_trigger_monotone_witness :
    (100 : ℚ) ≤ (trailingUpdate defaultConfig 100 98 103).1
    ∧ (98 : ℚ) ≤ (trailingUpdate defaultConfig 100 98 103).2
    ∧ (trailingUpdate defaultConfig 100 98 103).2
        = (trailingUpdate defaultConfig 100 98 103).1
            * (1 - defaultConfig.trailing_stop_percentage) :=
  C6_trailing_trigger_monotone defaultConfig 100 98 103
    (by norm_num [defaultConfig]) (by norm_num [defaultConfig])

/-- Claim C7, counterexample: with the sell rate-limited
(`RateLimited{retryAfter=30}`), the monitor submits the sell exactly once,
records no SELL, and still exits its loop (leaving the identical retry tick
unread) — it neither waits nor resubmits, and it transitions away from
monitoring without any successful fill. -/
theorem C7_no_retry_counterexample :
    rateLimitedRun.events.countP isSellSubmitted = 1
    ∧ rateLimitedRun.result = .exited 106 .takeProfit false
    ∧ rateLimitedRun.entries = []
    ∧ rateLimitedRun.feedRemaining = [some 106] := by
  norm_num [rateLimitedRun, check_take_profit_and_stop_loss, place_sell_order,
    List.countP_cons, List.countP_nil, isSellSubmitted, defaultConfig]

/-- Claim C7 as amended: a failed sell submission is swallowed —
`place_sell_order` performs a single submission, no wait and no
resubmission, logs no SELL — and the TP/SL monitor breaks out of its loop
as if the position had closed, leaving the rest of the feed unread. -/
theorem C7_sell_failure_swallowed (cfg : Config) (pair : String) (bp amt : ℚ)
    (r : ℕ) (feed : List (Option ℚ)) :
    place_sell_order pair bp amt (.rateLimited r)
      = ⟨false, [], [.sellSubmitted pair bp amt, .sellFailed pair bp amt]⟩
    ∧ check_take_profit_and_stop_loss cfg pair bp amt (.rateLimited r)
        (some (bp * (1 + cfg.take_profit_percentage)) :: feed)
      = ⟨.exited (bp * (1 + cfg.take_profit_percentage)) .takeProfit false, [],
          [.sellSubmitted pair (bp * (1 + cfg.take_profit_percentage)) amt,
           .sellFailed pair (bp * (1 + cfg.take_profit_percentage)) amt,
           .exitTriggered pair .takeProfit (bp * (1 + cfg.take_profit_percentage))],
          feed⟩ := by
  refine ⟨rfl, ?_⟩
  simp [check_take_profit_and_stop_loss, place_sell_order]

/-- Claim C7's amended statement, instantiated: entry 0, trigger tick 0,
rate-limited by 30 seconds. -/
theorem C7_sell_failure_swallowed_witness :
    place_sell_order "BTC/USD" 0 1 (.rateLimited 30)
      = ⟨false, [], [.sellSubmitted "BTC/USD" 0 1, .sellFailed "BTC/USD" 0 1]⟩
    ∧ check_take_profit_and_stop_loss defaultConfig "BTC/USD" 0 1 (.rateLimited 30)
        (some (0 * (1 + defaultConfig.take_profit_percentage)) :: [])
      = ⟨.exited (0 * (1 + defaultConfig.take_profit_percentage)) .takeProfit false, [],
          [.sellSubmitted "BTC/USD" (0 * (1 + defaultConfig.take_profit_percentage)) 1,
           .sellFailed "BTC/USD" (0 * (1 + defaultConfig.take_profit_percentage)) 1,
           .exitTriggered "BTC/USD" .takeProfit
             (0 * (1 + defaultConfig.take_profit_percentage))],
          []⟩ :=
  C7_sell_failure_swallowed defaultConfig "BTC/USD" 0 1 30 []

/-- Claim C8, counterexample: after five consecutive unavailable price
samples (more than any configured maximum of consecutive stale ticks up to
five) the monitor has emitted no STALLED warning of any kind; it silently
resumes and exits at the 200 tick. -/
theorem C8_no_stalled_warning_counterexample :
    staleRun.events.any isStalledWarning = false
    ∧ staleRun.result = .exited 200 .takeProfit true := by
  norm_num [staleRun, staleFeed, check_take_profit_and_stop_loss, place_sell_order,
    isStalledWarning, defaultConfig]

/-- Claim C9, counterexample: on the exact claimed path 100, 103, 106, 104
the trailing-stop logic IS evaluated for the position — after the
take-profit sell at 106 the strategy enters `trailing_sell`, which consumes
the 104 observation as its initial high-water fetch and keeps monitoring
(status `stillTrailing`, feed fully consumed). -/
theorem C9_trailing_evaluated_counterexample :
    runScenario9.status = .stillTrailing ∧ runScenario9.feedRemaining = [] := by
  norm_num [runScenario9, feedScenario9, execute_trading_strategy, place_buy_order,
    check_take_profit_and_stop_loss, trailing_sell, trailingLoop, trailingUpdate,
    place_sell_order, defaultConfig]

/-- Claim C10: when the very first price fetch of `trailing_sell` fails,
computing the initial trailing trigger multiplies `None` by a number and
raises a `TypeError` — no skip, no retry; whereas inside the loop a failed
fetch on a later iteration only sleeps and retries. -/
theorem C10_first_fetch_none_type_error (cfg : Config) (pair : String)
    (amt : ℚ) (gw : GatewayResult) (feed : List (Option ℚ)) (hw stop : ℚ) :
    (trailing_sell cfg pair amt gw (none :: feed)).1 = some PyError.typeError
    ∧ trailingLoop cfg pair amt gw hw stop (none :: feed)
        = trailingLoop cfg pair amt gw hw stop feed := by
  exact ⟨rfl, rfl⟩

/-- Claim C2: in the TP/SL monitor's tick evaluation, take-profit is tested
before stop-loss: on a tick satisfying BOTH bracket conditions the monitor
exits via take-profit at the observed price, and no stop-loss or
trailing-stop trigger notification is ever emitted on that run. -/
theorem C2_take_profit_priority (cfg : Config) (pair : String) (bp amt : ℚ)
    (gw : GatewayResult) (p : ℚ) (feed : List (Option ℚ))
    (htp : bp * (1 + cfg.take_profit_percentage) ≤ p)
    (hsl : p ≤ bp * (1 - cfg.stop_loss_percentage)) :
    (check_take_profit_and_stop_loss cfg pair bp amt gw (some p :: feed)).result
      = .exited p .takeProfit (place_sell_order pair p amt gw).filled
    ∧ ((check_take_profit_and_stop_loss cfg pair bp amt gw (some p :: feed)).events.all
        fun e => !(isExitOfKind .stopLoss e) && !(isExitOfKind .trailingStop e)) = true := by
  rw [show check_take_profit_and_stop_loss cfg pair bp amt gw (some p :: feed)
      = ⟨.exited p .takeProfit (place_sell_order pair p amt gw).filled,
          (place_sell_order pair p amt gw).entries,
          (place_sell_order pair p amt gw).events
            ++ [.exitTriggered pair .takeProfit p], feed⟩ by
    simp [check_take_profit_and_stop_loss, htp]]
  refine ⟨rfl, ?_⟩
  cases gw <;> simp [place_sell_order, isExitOfKind]

/-- Claim C2, witness: the only ticks satisfying both bracket conditions at
once have non-positive entry; at entry 0 and price 0 both hold and the
take-profit branch wins. -/
theorem C2_take_profit_priority_witness :
    (check_take_profit_and_stop_loss defaultConfig "BTC/USD" 0 1 .filled
        [some 0]).result
      = .exited 0 .takeProfit (place_sell_order "BTC/USD" 0 1 .filled).filled
    ∧ ((check_take_profit_and_stop_loss defaultConfig "BTC/USD" 0 1 .filled
        [some 0]).events.all
        fun e => !(isExitOfKind .stopLoss e) && !(isExitOfKind .trailingStop e)) = true :=
  C2_take_profit_priority defaultConfig "BTC/USD" 0 1 .filled 0 []
    (by norm_num) (by norm_num)

/-- Claim C3, counterexample: in the schedule where thread A's pipeline
completes first, the profit target is already met on the shared ledger
(`check_total_profit` is `true`, the moment the spec's halted flag would be
set) and thread B's pipeline nevertheless issues a buy. -/
theorem C3_buy_despite_target_counterexample :
    check_total_profit defaultConfig pipelineA.ledger = true
    ∧ pipelineB.events.any isBought = true := by
  norm_num [pipelineA, pipelineB, feedHalt, feedLate, execute_trading_strategy,
    place_buy_order, check_take_profit_and_stop_loss, trailing_sell, trailingLoop,
    trailingUpdate, place_sell_order, check_total_profit, total_profit,
    totalProfitStep, isBought, defaultConfig]

/-- Claim C4, counterexample: in the same admissible schedule, thread A's
trace ends with the `exit()` taken on reaching the profit target, and
thread B's buy event follows it in the global order — a new buy IS
submitted after the halt, because no global halted flag exists. -/
theorem C4_buy_after_halt_counterexample :
    pipelineA.halted = true ∧ noBuyAfterHalt sequentialTrace = false := by
  norm_num [sequentialTrace, pipelineA, pipelineB, feedHalt, feedLate,
    execute_trading_strategy, place_buy_order, check_take_profit_and_stop_loss,
    trailing_sell, trailingLoop, trailingUpdate, place_sell_order,
    check_total_profit, total_profit, totalProfitStep, noBuyAfterHalt,
    isBought, isHalt, defaultConfig]

/-- Claim C1 as amended: each monitor phase issues at most one sell — the
TP/SL monitor at most one and the trailing monitor at most one — but the
strategy runs both phases for the same position, so up to TWO sells are
issued per position (never more). -/
theorem C1_at_most_one_sell_per_monitor_phase (cfg : Config) (pair : String)
    (bp amt hw stop : ℚ) (gw gwBuy gwTPSL gwTrail : GatewayResult)
    (prior : List LedgerEntry) (feed : List (Option ℚ)) :
    sellEntryCount
      (check_take_profit_and_stop_loss cfg pair bp amt gw feed).entries ≤ 1
    ∧ sellEntryCount (trailingLoop cfg pair amt gw hw stop feed).entries ≤ 1
    ∧ sellEntryCount (execute_trading_strategy cfg pair amt gwBuy gwTPSL gwTrail
        prior feed).ledger ≤ 2 :=
  ⟨sellEntryCount_tpsl_le_one cfg pair bp amt gw feed,
   sellEntryCount_trailingLoop_le_one cfg pair amt gw hw stop feed,
   sellEntryCount_strategy_le_two cfg pair amt gwBuy gwTPSL gwTrail prior feed⟩

/-- Claim C3 as amended: a pipeline's buy succeeds exactly when its first
price fetch returns a positive price and the exchange fills the order —
no open-position check, no halted flag, no cooldown and no
discount-off-reference entry condition is consulted anywhere. -/
theorem C3_buy_condition_characterization (pair : String) (amt : ℚ)
    (gw : GatewayResult) (feed : List (Option ℚ)) (p : ℚ) :
    ((place_buy_order pair amt gw feed).buyPrice = some p
      ↔ feed.head? = some (some p) ∧ 0 < p ∧ gw = .filled) := by
  cases feed with
  | nil => simp [place_buy_order]
  | cons h t =>
    cases h with
    | none => simp [place_buy_order]
    | some q =>
      simp only [place_buy_order, List.head?]
      by_cases hq : q ≤ 0
      · rw [if_pos hq]
        simp only [Option.some.injEq]
        constructor
        · intro hfalse
          cases hfalse
        · rintro ⟨hqp, hp, _⟩
          exfalso
          rw [← hqp] at hp
          linarith
      · rw [if_neg hq]
        push_neg at hq
        cases gw with
        | filled =>
          constructor
          · intro hqp
            have hqp2 : some q = some p := hqp
            have hq2 : q = p := by injection hqp2
            subst hq2
            exact ⟨rfl, hq, rfl⟩
          · rintro ⟨hqp, hp, _⟩
            have hq2 : q = p := by
              injection hqp with h1
              injection h1
            show some q = some p
            rw [hq2]
        | rateLimited r =>
          constructor
          · intro hfalse
            have h2 : (none : Option ℚ) = some p := hfalse
            cases h2
          · rintro ⟨_, _, hg⟩
            cases hg
        | rejected =>
          constructor
          · intro hfalse
            have h2 : (none : Option ℚ) = some p := hfalse
            cases h2
          · rintro ⟨_, _, hg⟩
            cases hg

/-- Claim C4 as amended: reaching the profit target makes the observing
thread call `exit()` as the last step of its own pipeline, so WITHIN one
pipeline's trace no buy ever follows the halt; there is no global halted
flag, and (see the counterexample) another pipeline may still buy after the
target is reached, while its open position continues to be monitored. -/
theorem C4_no_buy_after_halt_within_pipeline (cfg : Config) (pair : String)
    (amt : ℚ) (gwBuy gwTPSL gwTrail : GatewayResult) (prior : List LedgerEntry)
    (feed : List (Option ℚ)) :
    noBuyAfterHalt (execute_trading_strategy cfg pair amt gwBuy gwTPSL gwTrail
      prior feed).events = true := by
  unfold execute_trading_strategy
  dsimp only
  have hb := haltFree_buy pair amt gwBuy feed
  cases hbp : (place_buy_order pair amt gwBuy feed).buyPrice with
  | none =>
    simp only [hbp]
    try dsimp only
    rw [noBuyAfterHalt_append_of_haltFree _ _ hb]
    exact noBuyAfterHalt_tail _
  | some bp =>
    simp only [hbp]
    have hm := haltFree_tpsl cfg pair bp amt gwTPSL
      (place_buy_order pair amt gwBuy feed).feedRemaining
    cases hm1 : (check_take_profit_and_stop_loss cfg pair bp amt gwTPSL
        (place_buy_order pair amt gwBuy feed).feedRemaining).result with
    | running =>
      simp only [hm1]
      try dsimp only
      exact noBuyAfterHalt_of_haltFree _ (by rw [haltFree_append, hb, hm]; rfl)
    | exited ps k f =>
      simp only [hm1]
      have ht := haltFree_trailing_sell cfg pair amt gwTrail
        (check_take_profit_and_stop_loss cfg pair bp amt gwTPSL
          (place_buy_order pair amt gwBuy feed).feedRemaining).feedRemaining
      cases ht1 : (trailing_sell cfg pair amt gwTrail
          (check_take_profit_and_stop_loss cfg pair bp amt gwTPSL
            (place_buy_order pair amt gwBuy feed).feedRemaining).feedRemaining).1 with
      | some e =>
        simp only [ht1]
        try dsimp only
        rw [List.append_assoc, List.append_assoc,
          noBuyAfterHalt_append_of_haltFree _ _ hb,
          noBuyAfterHalt_append_of_haltFree _ _ hm,
          noBuyAfterHalt_append_of_haltFree _ _ ht]
        exact noBuyAfterHalt_tail _
      | none =>
        simp only [ht1]
        cases ht2 : (trailing_sell cfg pair amt gwTrail
            (check_take_profit_and_stop_loss cfg pair bp amt gwTPSL
              (place_buy_order pair amt gwBuy feed).feedRemaining).feedRemaining).2.result with
        | running =>
          simp only [ht2]
          try dsimp only
          refine noBuyAfterHalt_of_haltFree _ ?_
          rw [haltFree_append, haltFree_append, hb, hm, ht]
          rfl
        | exited ps2 k2 f2 =>
          simp only [ht2]
          try dsimp only
          rw [List.append_assoc, List.append_assoc,
            noBuyAfterHalt_append_of_haltFree _ _ hb,
            noBuyAfterHalt_append_of_haltFree _ _ hm,
            noBuyAfterHalt_append_of_haltFree _ _ ht]
          exact noBuyAfterHalt_tail _

/-- Claim C5: the profit check computes SELL notional minus BUY notional
over the ledger; the value is invariant under any permutation of the rows
(so independent of the order in which closes from different instruments
were appended); and with the configured target 100 the check reports the
target met exactly when that sum is at least 100. -/
theorem C5_profit_aggregation (l m : List LedgerEntry) (h : l.Perm m) :
    total_profit l = notional .sell l - notional .buy l
    ∧ total_profit l = total_profit m
    ∧ (check_total_profit defaultConfig l = true ↔ 100 ≤ total_profit l) :=
  ⟨total_profit_eq_notional l, total_profit_perm h, check_total_profit_iff l⟩

/-- Claim C5, witness: the two-row ledger buy-100/sell-106 and its
reordering. -/
theorem C5_profit_aggregation_witness :
    total_profit demoLedgerA = notional .sell demoLedgerA - notional .buy demoLedgerA
    ∧ total_profit demoLedgerA = total_profit demoLedgerB
    ∧ (check_total_profit defaultConfig demoLedgerA = true
        ↔ 100 ≤ total_profit demoLedgerA) :=
  C5_profit_aggregation demoLedgerA demoLedgerB (List.Perm.swap _ _ _)

/-- Claim C8 as amended: both monitors skip the tick when the price fetch
fails (the loop just sleeps and retries, acting on nothing), but no count
of consecutive skips is kept and no STALLED warning is ever emitted on any
feed. -/
theorem C8_skip_without_stall_escalation (cfg : Config) (pair : String)
    (bp amt hw stop : ℚ) (gw : GatewayResult) (feed : List (Option ℚ)) :
    check_take_profit_and_stop_loss cfg pair bp amt gw (none :: feed)
      = check_take_profit_and_stop_loss cfg pair bp amt gw feed
    ∧ trailingLoop cfg pair amt gw hw stop (none :: feed)
        = trailingLoop cfg pair amt gw hw stop feed
    ∧ ((check_take_profit_and_stop_loss cfg pair bp amt gw feed).events.any
        isStalledWarning) = false :=
  ⟨rfl, rfl, no_stalled_tpsl cfg pair bp amt gw feed⟩

/-- Claim C9 as amended: on the path 100, 103, 106, 104 the take-profit
fires at the 106 tick (the first price at or above 105), the sell is placed
at the observed 106 for the full quantity, the realized P&L recorded in the
ledger is +6 × qty — and then the trailing-stop monitor IS started for the
position, consuming the 104 tick as its initial high-water fetch and
continuing to monitor. -/
theorem C9_scenario_with_trailing_phase (q : ℚ) :
    (execute_trading_strategy defaultConfig "BTC/USD" q .filled .filled .filled
        [] feedScenario9).ledger
      = [⟨.buy, "BTC/USD", 100, q⟩, ⟨.sell, "BTC/USD", 106, q⟩]
    ∧ total_profit ((execute_trading_strategy defaultConfig "BTC/USD" q .filled
        .filled .filled [] feedScenario9).ledger) = 6 * q
    ∧ (execute_trading_strategy defaultConfig "BTC/USD" q .filled .filled .filled
        [] feedScenario9).events
      = [.bought "BTC/USD" 100 q, .sellSubmitted "BTC/USD" 106 q,
         .soldOk "BTC/USD" 106 q, .exitTriggered "BTC/USD" .takeProfit 106]
    ∧ (execute_trading_strategy defaultConfig "BTC/USD" q .filled .filled .filled
        [] feedScenario9).status = .stillTrailing := by
  have hrun : execute_trading_strategy defaultConfig "BTC/USD" q .filled .filled
      .filled [] feedScenario9
      = ⟨.stillTrailing, [⟨.buy, "BTC/USD", 100, q⟩, ⟨.sell, "BTC/USD", 106, q⟩],
          [.bought "BTC/USD" 100 q, .sellSubmitted "BTC/USD" 106 q,
           .soldOk "BTC/USD" 106 q, .exitTriggered "BTC/USD" .takeProfit 106],
          [], false⟩ := by
    norm_num [feedScenario9, execute_trading_strategy, place_buy_order,
      check_take_profit_and_stop_loss, trailing_sell, trailingLoop, trailingUpdate,
      place_sell_order, defaultConfig]
  rw [hrun]
  refine ⟨rfl, ?_, rfl, rfl⟩
  rw [total_profit_cons, total_profit_cons]
  simp [totalProfitStep, total_profit]
  ring

end KrakenGridBot
